import Mathlib

/-!
A verification development for the `wee_bugger` interactive line debugger
(`src/wee_bugger/wee_bugger.py`).  The Python source is shallowly embedded:

* prints are modelled as lists of output lines (one list element per `print`
  call, holding exactly the string that call would emit);
* `linecache` is modelled by a map from file names to their lists of lines
  (`getline` returns `""` outside the 1-based range, as `linecache.getline`
  does);
* the operator console is modelled as a list of `InputEvent`s: a line of text,
  a `KeyboardInterrupt` raised inside `input()`, or any other `Exception`
  raised while reading (e.g. `EOFError`), carrying its message;
* `sys.exit(0)` raises `SystemExit`, which is *not* an `Exception` subclass
  and therefore is not caught by the prompt loop's `except Exception`
  handler; this is modelled by the `HandlerResult.exit` / `PromptOutcome.quit`
  constructors, which every enclosing construct propagates;
* an exhausted input list makes the loop report `PromptOutcome.exhausted`
  (the real loop would block on `input()`); a `TraceResult.returned` value
  corresponds exactly to the trace callback actually returning.
-/

namespace WeeBugger

/-- Python `str.rstrip()` with no argument: drop trailing whitespace. -/
def pyRstrip (s : String) : String :=
  String.mk ((s.data.reverse.dropWhile Char.isWhitespace).reverse)

/-- Python `str.strip()` with no argument: drop leading and trailing whitespace. -/
def pyStrip (s : String) : String :=
  String.mk (((s.data.dropWhile Char.isWhitespace).reverse.dropWhile Char.isWhitespace).reverse)

/-- Python `f"{n:4d}"` for a natural number: decimal, right-aligned in width 4. -/
def pyFormat4d (n : Nat) : String :=
  let s := toString n
  if s.length < 4 then String.mk (List.replicate (4 - s.length) ' ') ++ s else s

/-- Python `s.split(maxsplit=1)` (split on whitespace runs): `[]` when the
string is empty or all whitespace, `[tok]` when there is a single token,
`[tok, rest]` otherwise, where `rest` starts at the first non-whitespace
character after the first whitespace run following `tok` and keeps any
internal and trailing whitespace verbatim. -/
def pySplitMax1 (s : String) : List String :=
  let cs := s.data.dropWhile Char.isWhitespace
  if cs = [] then []
  else
    let tok := cs.takeWhile (fun c => !c.isWhitespace)
    let rest := (cs.dropWhile (fun c => !c.isWhitespace)).dropWhile Char.isWhitespace
    if rest = [] then [String.mk tok] else [String.mk tok, String.mk rest]

/-- Python `dict.get k`: first (unique) binding of `k`, as an `Option`. -/
def dictGet (d : List (String × String)) (k : String) : Option String :=
  match d with
  | [] => none
  | (a, v) :: rest => if a = k then some v else dictGet rest k

/-- Model of `linecache.getline`: the 1-based `lineno`-th line of the named file, or
`""` when the file has no such line. -/
def getline (files : String → List String) (fname : String) (lineno : Nat) : String :=
  if 1 ≤ lineno ∧ lineno ≤ (files fname).length then (files fname).getD (lineno - 1) "" else ""

/-- The Frame Snapshot of §3: source location plus bindings.  Values are kept
in their printed (`str`-rendered) form, which is all the debugger ever does
with them. -/
structure FrameSnapshot where
  filename : String
  lineno : Nat
  locals : List (String × String)
  globals : List (String × String)
deriving DecidableEq

/-- The `SimpleDebugger` instance state: `step_mode`, `continue_mode`,
`current_frame` (`self.current_frame`, `None` initially). -/
structure DebuggerState where
  step_mode : Bool
  continue_mode : Bool
  current_frame : Option FrameSnapshot
deriving DecidableEq

/-- One operator-console read: a line of input, a `KeyboardInterrupt` raised
inside `input()`, or any other `Exception` raised while reading, with its
rendered message. -/
inductive InputEvent where
  | line (s : String)
  | interrupt
  | err (msg : String)
deriving DecidableEq

/-- How one pass of the prompt loop ends. -/
inductive PromptOutcome where
  | resumed
  | quit (code : Nat)
  | exhausted
deriving DecidableEq

/-- The value the trace callback returns: itself (keep observing this
context) or `None` (detach). -/
inductive ObserverDecision where
  | keepObserving
  | detach
deriving DecidableEq

/-- Result of one command handler: normal completion with a new state and
output, or a `SystemExit` escaping with the given code (`sys.exit`). -/
inductive HandlerResult where
  | ok (st : DebuggerState) (out : List String)
  | exit (code : Nat)
deriving DecidableEq

/-- The eight lines printed by `SimpleDebugger._help`. -/
def helpLines : List String :=
  ["\nAvailable commands:",
   "h: Show this help",
   "n: Step to next line",
   "p <var>: Print variable value",
   "l: List source code around current line",
   "c: Continue execution",
   "v: Show all local variables",
   "q: Quit debugging"]

/-- Model of `SimpleDebugger._help`: print the command summary. -/
def _help (arg : String) : List String :=
  helpLines

/-- Model of `SimpleDebugger._step`: set `step_mode` to `True`. -/
def _step (st : DebuggerState) (arg : String) : DebuggerState :=
  { st with step_mode := true }

/-- Model of `SimpleDebugger._continue`: set `continue_mode` to `True`. -/
def _continue (st : DebuggerState) (arg : String) : DebuggerState :=
  { st with continue_mode := true }

/-- Output of the print-variable handler, as a function of the current frame
(`self.current_frame`).  With no frame, `self.current_frame.frame` raises an
`AttributeError`, caught by the handler's own `except Exception`. -/
def printVariableOut (fr? : Option FrameSnapshot) (arg : String) : List String :=
  if arg = "" then ["Usage: p <variable_name>"]
  else
    match fr? with
    | none => ["Error accessing variable: \x27NoneType\x27 object has no attribute \x27frame\x27"]
    | some fr =>
        let value := ((dictGet fr.locals arg).getD ((dictGet fr.globals arg).getD "<not found>"))
        [arg ++ " = " ++ value]

/-- Model of `SimpleDebugger._print_variable`. -/
def _print_variable (st : DebuggerState) (arg : String) : List String :=
  printVariableOut st.current_frame arg

/-- Output of the vars handler, as a function of the current frame. -/
def listVariablesOut (fr? : Option FrameSnapshot) : List String :=
  match fr? with
  | none => []
  | some fr => fr.locals.map (fun p => p.1 ++ " = " ++ p.2)

/-- Model of `SimpleDebugger._list_variables`. -/
def _list_variables (st : DebuggerState) (arg : String) : List String :=
  listVariablesOut st.current_frame

/-- One row of the source listing:
`print(f"{marker} {line_num:4d} {line}")` with
`marker = '-->' if line_num == current_line else '   '` and
`line = linecache.getline(filename, line_num).rstrip()`. -/
def renderSourceRow (files : String → List String) (fname : String) (current n : Nat) : String :=
  (if n = current then "-->" else "   ") ++ " " ++ pyFormat4d n ++ " " ++
    pyRstrip (getline files fname n)

/-- Output of the list handler, as a function of the current frame: header,
then one row per line number from `max(current_line - 5, 1)` to
`current_line + 5` inclusive. -/
def listSourceOut (files : String → List String) (fr? : Option FrameSnapshot) : List String :=
  match fr? with
  | none => []
  | some fr =>
      ("\nSource code around line " ++ toString fr.lineno ++ ":") ::
        (List.range' (max (fr.lineno - 5) 1) (fr.lineno + 5 + 1 - max (fr.lineno - 5) 1)).map
          (renderSourceRow files fr.filename fr.lineno)

/-- Model of `SimpleDebugger._list_source`. -/
def _list_source (files : String → List String) (st : DebuggerState) (arg : String) :
    List String :=
  listSourceOut files st.current_frame

/-- Output of `SimpleDebugger._show_current_line`, as a function of the
current frame. -/
def showCurrentLineOut (files : String → List String) (fr? : Option FrameSnapshot) :
    List String :=
  match fr? with
  | none => []
  | some fr =>
      ["\nAt " ++ fr.filename ++ ":" ++ toString fr.lineno,
       "--> " ++ pyStrip (getline files fr.filename fr.lineno)]

/-- The `self.commands` dictionary lookup followed by the handler call:
`none` for a key absent from the table, otherwise the handler's result. -/
def dispatch (files : String → List String) (st : DebuggerState) (command arg : String) :
    Option HandlerResult :=
  if command = "h" then some (HandlerResult.ok st (_help arg))
  else if command = "n" then some (HandlerResult.ok (_step st arg) [])
  else if command = "p" then some (HandlerResult.ok st (_print_variable st arg))
  else if command = "l" then some (HandlerResult.ok st (_list_source files st arg))
  else if command = "c" then some (HandlerResult.ok (_continue st arg) [])
  else if command = "v" then some (HandlerResult.ok st (_list_variables st arg))
  else if command = "q" then some (HandlerResult.exit 0)
  else none

/-- Model of `SimpleDebugger._prompt_command`, driven by the list of console reads.
Returns the state when the loop ends, everything printed, and how it ended.
`KeyboardInterrupt` and reader `Exception`s are caught and prompting
resumes; a whitespace-only line makes `command, *args = cmd.split(maxsplit=1)`
raise `ValueError`, caught by `except Exception`; `SystemExit` from `q`
propagates (it is not an `Exception`). -/
def _prompt_command (files : String → List String) :
    DebuggerState → List InputEvent → DebuggerState × List String × PromptOutcome
  | st, [] => (st, [], PromptOutcome.exhausted)
  | st, InputEvent.interrupt :: rest =>
      let r := _prompt_command files st rest
      (r.1, "\nUse \x27q\x27 to quit" :: r.2.1, r.2.2)
  | st, InputEvent.err msg :: rest =>
      let r := _prompt_command files st rest
      (r.1, ("Error: " ++ msg) :: r.2.1, r.2.2)
  | st, InputEvent.line cmd :: rest =>
      if cmd = "" then _prompt_command files st rest
      else
        match pySplitMax1 cmd with
        | [] =>
            let r := _prompt_command files st rest
            (r.1, "Error: not enough values to unpack (expected at least 1, got 0)" :: r.2.1,
              r.2.2)
        | command :: args =>
            let arg := args.headD ""
            match dispatch files st command arg with
            | some (HandlerResult.ok st' out) =>
                if command = "n" ∨ command = "c" then (st', out, PromptOutcome.resumed)
                else
                  let r := _prompt_command files st' rest
                  (r.1, out ++ r.2.1, r.2.2)
            | some (HandlerResult.exit code) => (st, [], PromptOutcome.quit code)
            | none =>
                let r := _prompt_command files st rest
                (r.1, (("Unknown command: " ++ command) :: helpLines) ++ r.2.1, r.2.2)

/-- Result of one invocation of the trace callback: a normal return (with the
decision `self.trace_function` / `None` encoded as an `ObserverDecision`), a
`SystemExit` escaping (process terminates with the given code; the
`self.step_mode = False` reset and the `return` are never reached), or the
prompt loop still blocked on input when the modelled console reads ran out. -/
inductive TraceResult where
  | returned (st : DebuggerState) (out : List String) (dec : ObserverDecision)
  | exited (code : Nat) (st : DebuggerState) (out : List String)
  | stuck (st : DebuggerState) (out : List String)
deriving DecidableEq

/-- Model of `SimpleDebugger.trace_function` for one event: on a `"line"` event store
the frame snapshot, and unless continuing, show the current line and run the
prompt loop; then reset `step_mode` and return `self.trace_function`
(keep observing) when `continue_mode` is false, else `None` (detach).  Any
other event kind falls through to the `return` statement untouched. -/
def trace_function (files : String → List String) (st : DebuggerState) (fr : FrameSnapshot)
    (event : String) (inputs : List InputEvent) : TraceResult :=
  if event = "line" then
    let st1 : DebuggerState := { st with current_frame := some fr }
    if st1.continue_mode = false then
      let showOut := showCurrentLineOut files st1.current_frame
      let r := _prompt_command files st1 inputs
      match r.2.2 with
      | PromptOutcome.resumed =>
          let st2 : DebuggerState := { r.1 with step_mode := false }
          TraceResult.returned st2 (showOut ++ r.2.1)
            (if st2.continue_mode = false then ObserverDecision.keepObserving
             else ObserverDecision.detach)
      | PromptOutcome.quit code => TraceResult.exited code r.1 (showOut ++ r.2.1)
      | PromptOutcome.exhausted => TraceResult.stuck r.1 (showOut ++ r.2.1)
    else
      let st2 : DebuggerState := { st1 with step_mode := false }
      TraceResult.returned st2 []
        (if st2.continue_mode = false then ObserverDecision.keepObserving
         else ObserverDecision.detach)
  else
    TraceResult.returned st []
      (if st.continue_mode = false then ObserverDecision.keepObserving
       else ObserverDecision.detach)

/-! Section: A debugger with the `step_mode` flag removed

`step_mode` is assigned (in `_step` and at the end of each line event) but
never read, so the spec regards it as having no observable effect.  The
following mirror of the debugger omits the flag entirely; the refinement
theorem below shows its outputs, prompt outcomes and observer decisions agree
with the original on every input. -/

/-- Debugger state without the `step_mode` flag. -/
structure DebuggerStateNF where
  continue_mode : Bool
  current_frame : Option FrameSnapshot
deriving DecidableEq

/-- Forget the `step_mode` flag. -/
def eraseStep (st : DebuggerState) : DebuggerStateNF :=
  { continue_mode := st.continue_mode, current_frame := st.current_frame }

/-- Handler result for the flag-free debugger. -/
inductive HandlerResultNF where
  | ok (st : DebuggerStateNF) (out : List String)
  | exit (code : Nat)
deriving DecidableEq

/-- Command dispatch for the flag-free debugger: identical to `dispatch`
except that the step command only ends the prompt loop, setting no flag. -/
def dispatchNF (files : String → List String) (st : DebuggerStateNF) (command arg : String) :
    Option HandlerResultNF :=
  if command = "h" then some (HandlerResultNF.ok st (_help arg))
  else if command = "n" then some (HandlerResultNF.ok st [])
  else if command = "p" then some (HandlerResultNF.ok st (printVariableOut st.current_frame arg))
  else if command = "l" then some (HandlerResultNF.ok st (listSourceOut files st.current_frame))
  else if command = "c" then
    some (HandlerResultNF.ok { st with continue_mode := true } [])
  else if command = "v" then some (HandlerResultNF.ok st (listVariablesOut st.current_frame))
  else if command = "q" then some (HandlerResultNF.exit 0)
  else none

/-- Prompt loop for the flag-free debugger. -/
def promptCommandNF (files : String → List String) :
    DebuggerStateNF → List InputEvent → DebuggerStateNF × List String × PromptOutcome
  | st, [] => (st, [], PromptOutcome.exhausted)
  | st, InputEvent.interrupt :: rest =>
      let r := promptCommandNF files st rest
      (r.1, "\nUse \x27q\x27 to quit" :: r.2.1, r.2.2)
  | st, InputEvent.err msg :: rest =>
      let r := promptCommandNF files st rest
      (r.1, ("Error: " ++ msg) :: r.2.1, r.2.2)
  | st, InputEvent.line cmd :: rest =>
      if cmd = "" then promptCommandNF files st rest
      else
        match pySplitMax1 cmd with
        | [] =>
            let r := promptCommandNF files st rest
            (r.1, "Error: not enough values to unpack (expected at least 1, got 0)" :: r.2.1,
              r.2.2)
        | command :: args =>
            let arg := args.headD ""
            match dispatchNF files st command arg with
            | some (HandlerResultNF.ok st' out) =>
                if command = "n" ∨ command = "c" then (st', out, PromptOutcome.resumed)
                else
                  let r := promptCommandNF files st' rest
                  (r.1, out ++ r.2.1, r.2.2)
            | some (HandlerResultNF.exit code) => (st, [], PromptOutcome.quit code)
            | none =>
                let r := promptCommandNF files st rest
                (r.1, (("Unknown command: " ++ command) :: helpLines) ++ r.2.1, r.2.2)

/-- Trace-callback result for the flag-free debugger. -/
inductive TraceResultNF where
  | returned (st : DebuggerStateNF) (out : List String) (dec : ObserverDecision)
  | exited (code : Nat) (st : DebuggerStateNF) (out : List String)
  | stuck (st : DebuggerStateNF) (out : List String)
deriving DecidableEq

/-- Forget the `step_mode` flag in a trace-callback result. -/
def eraseStepResult : TraceResult → TraceResultNF
  | TraceResult.returned st out dec => TraceResultNF.returned (eraseStep st) out dec
  | TraceResult.exited code st out => TraceResultNF.exited code (eraseStep st) out
  | TraceResult.stuck st out => TraceResultNF.stuck (eraseStep st) out

/-- Trace callback for the flag-free debugger: no `step_mode` reset exists. -/
def traceFunctionNF (files : String → List String) (st : DebuggerStateNF) (fr : FrameSnapshot)
    (event : String) (inputs : List InputEvent) : TraceResultNF :=
  if event = "line" then
    let st1 : DebuggerStateNF := { st with current_frame := some fr }
    if st1.continue_mode = false then
      let showOut := showCurrentLineOut files st1.current_frame
      let r := promptCommandNF files st1 inputs
      match r.2.2 with
      | PromptOutcome.resumed =>
          TraceResultNF.returned r.1 (showOut ++ r.2.1)
            (if r.1.continue_mode = false then ObserverDecision.keepObserving
             else ObserverDecision.detach)
      | PromptOutcome.quit code => TraceResultNF.exited code r.1 (showOut ++ r.2.1)
      | PromptOutcome.exhausted => TraceResultNF.stuck r.1 (showOut ++ r.2.1)
    else
      TraceResultNF.returned st1 []
        (if st1.continue_mode = false then ObserverDecision.keepObserving
         else ObserverDecision.detach)
  else
    TraceResultNF.returned st []
      (if st.continue_mode = false then ObserverDecision.keepObserving
       else ObserverDecision.detach)

/-! Section: Concrete fixtures used by witnesses and counterexamples -/

/-- An empty file system: every lookup misses (used where source text is
irrelevant, or to exercise the end-of-file behaviour). -/
def files0 : String → List String := fun _ => []

/-- A frame with one local and one (distinct) global binding. -/
def fr0 : FrameSnapshot :=
  { filename := "f", lineno := 1, locals := [("x", "7")], globals := [("y", "5")] }

/-- A fresh debugger state observing `fr0`. -/
def st0 : DebuggerState :=
  { step_mode := false, continue_mode := false, current_frame := some fr0 }

/-- A state in continue-mode. -/
def stC : DebuggerState :=
  { step_mode := false, continue_mode := true, current_frame := none }

/-- A frame whose name `x` is bound in `locals` and, differently, in
`globals`. -/
def frP : FrameSnapshot :=
  { filename := "f", lineno := 1, locals := [("x", "7")], globals := [("x", "9")] }

/-- A debugger state observing `frP`. -/
def stP : DebuggerState :=
  { step_mode := false, continue_mode := false, current_frame := some frP }

/-- A frame stopped at line 10 (source-listing fixture). -/
def frW : FrameSnapshot := { filename := "f", lineno := 10, locals := [], globals := [] }

/-- A debugger state observing `frW`. -/
def stW : DebuggerState :=
  { step_mode := false, continue_mode := false, current_frame := some frW }

/-! Section: Helper lemmas -/

/-- Splitting the empty input yields no tokens. -/
theorem pySplitMax1_empty : pySplitMax1 "" = [] := rfl

/-- An input line whose split produced a command token is not empty. -/
theorem ne_empty_of_split_cons {cmd command : String} {args : List String}
    (h : pySplitMax1 cmd = command :: args) : cmd ≠ "" := by
  intro he
  rw [he, pySplitMax1_empty] at h
  exact List.noConfusion h

/-- One pass of the prompt loop over an input line that parses into
`command :: args`: the loop dispatches on the command table and either
breaks, quits, or keeps prompting on the remaining reads. -/
theorem prompt_line_step (files : String → List String) (st : DebuggerState)
    (cmd command : String) (args : List String) (rest : List InputEvent)
    (h : pySplitMax1 cmd = command :: args) :
    _prompt_command files st (InputEvent.line cmd :: rest) =
      match dispatch files st command (args.headD "") with
      | some (HandlerResult.ok st' out) =>
          if command = "n" ∨ command = "c" then (st', out, PromptOutcome.resumed)
          else
            let r := _prompt_command files st' rest
            (r.1, out ++ r.2.1, r.2.2)
      | some (HandlerResult.exit code) => (st, [], PromptOutcome.quit code)
      | none =>
          let r := _prompt_command files st rest
          (r.1, (("Unknown command: " ++ command) :: helpLines) ++ r.2.1, r.2.2) := by
  have hne : cmd ≠ "" := ne_empty_of_split_cons h
  simp only [_prompt_command, if_neg hne, h]

/-! Section: C1 -/

/-- C1 (counterexample): with a frame current, the input line `p x` makes the
prompt loop print the binding and then go back to read another command (here:
exhaust the console reads) — it does not resume execution. -/
theorem print_command_does_not_resume_cex :
    _prompt_command files0 stP [InputEvent.line "p x"] =
      (stP, ["x = 7"], PromptOutcome.exhausted) ∧
    PromptOutcome.exhausted ≠ PromptOutcome.resumed := by
  exact ⟨by decide, by decide⟩

/-- C1 (amended): when the operator enters the print command `p` with a
non-empty argument, the handler prints the lookup result and the prompt loop
keeps prompting (it reads the next command with unchanged debugger state);
it does not resume execution. -/
theorem print_with_argument_keeps_prompting (files : String → List String)
    (st : DebuggerState) (cmd x : String) (rest : List InputEvent)
    (h : pySplitMax1 cmd = ["p", x]) :
    _prompt_command files st (InputEvent.line cmd :: rest) =
      ((_prompt_command files st rest).1,
        _print_variable st x ++ (_prompt_command files st rest).2.1,
        (_prompt_command files st rest).2.2) := by
  rw [prompt_line_step files st cmd "p" [x] rest h]
  rfl

/-- Witness for C1 (amended) at the console line `p x`. -/
theorem print_with_argument_keeps_prompting_witness :
    pySplitMax1 "p x" = ["p", "x"] ∧
    _prompt_command files0 stP [InputEvent.line "p x"] =
      ((_prompt_command files0 stP []).1,
        _print_variable stP "x" ++ (_prompt_command files0 stP []).2.1,
        (_prompt_command files0 stP []).2.2) :=
  ⟨rfl, print_with_argument_keeps_prompting files0 stP "p x" "x" [] rfl⟩

/-! Section: C2 -/

/-- C2: for an input line whose command key is in the command table and whose
handler completes normally, the prompt loop ends with execution resuming
exactly when the key is `n` or `c`; any other such command sends the loop
back to another console read (with a single read supplied, it ends up waiting
on the exhausted console). -/
theorem prompt_resumes_iff_step_or_continue (files : String → List String)
    (st : DebuggerState) (cmd command : String) (args : List String)
    (st' : DebuggerState) (out : List String)
    (hs : pySplitMax1 cmd = command :: args)
    (hd : dispatch files st command (args.headD "") = some (HandlerResult.ok st' out)) :
    (((_prompt_command files st [InputEvent.line cmd]).2.2 = PromptOutcome.resumed) ↔
      (command = "n" ∨ command = "c")) ∧
    (¬(command = "n" ∨ command = "c") →
      (_prompt_command files st [InputEvent.line cmd]).2.2 = PromptOutcome.exhausted) := by
  rw [prompt_line_step files st cmd command args [] hs, hd]
  by_cases hnc : command = "n" ∨ command = "c"
  · simp [hnc]
  · simp [hnc, _prompt_command]

/-- Witness for C2 at the console line `c`. -/
theorem prompt_resumes_iff_step_or_continue_witness :
    pySplitMax1 "c" = ["c"] ∧
    dispatch files0 st0 "c" "" = some (HandlerResult.ok (_continue st0 "") []) ∧
    (((_prompt_command files0 st0 [InputEvent.line "c"]).2.2 = PromptOutcome.resumed) ↔
      ("c" = "n" ∨ "c" = "c")) :=
  ⟨rfl, rfl,
    (prompt_resumes_iff_step_or_continue files0 st0 "c" "c" [] (_continue st0 "") []
      rfl rfl).1⟩

/-! Section: C3 -/

/-- C3: with a frame snapshot current, the print command's lookup searches
`locals` first (its binding wins even when `globals` also binds the name),
then `globals`, and prints the sentinel `<not found>` when both miss —
never an error. -/
theorem print_variable_lookup_rule (st : DebuggerState) (fr : FrameSnapshot)
    (x vl vg : String) (hf : st.current_frame = some fr) (hx : x ≠ "") :
    (dictGet fr.locals x = some vl → _print_variable st x = [x ++ " = " ++ vl]) ∧
    (dictGet fr.locals x = none → dictGet fr.globals x = some vg →
      _print_variable st x = [x ++ " = " ++ vg]) ∧
    (dictGet fr.locals x = none → dictGet fr.globals x = none →
      _print_variable st x = [x ++ " = " ++ "<not found>"]) := by
  refine ⟨fun h1 => ?_, fun h1 h2 => ?_, fun h1 h2 => ?_⟩
  · simp [_print_variable, printVariableOut, hf, hx, h1]
  · simp [_print_variable, printVariableOut, hf, hx, h1, h2]
  · simp [_print_variable, printVariableOut, hf, hx, h1, h2]

/-- Witness for C3: `x` bound to `7` in `locals` and to `9` in `globals`;
the `locals` value is printed. -/
theorem print_variable_lookup_rule_witness :
    dictGet frP.locals "x" = some "7" ∧ _print_variable stP "x" = ["x" ++ " = " ++ "7"] :=
  ⟨rfl, (print_variable_lookup_rule stP frP "x" "7" "9" rfl (by decide)).1 rfl⟩

/-! Section: C4 -/

/-- C4: with a frame snapshot current at line `L`, the list command prints a
header and then exactly one row per line number from `max(L - 5, 1)` to
`L + 5`, in increasing order (the row at offset `i` shows line
`max(L - 5, 1) + i`); the row for `L` carries the `-->` marker and every
other row carries blank padding of the same width; a line number past
end-of-file looks up as the empty string rather than failing. -/
theorem list_source_window (files : String → List String) (st : DebuggerState)
    (fr : FrameSnapshot) (a : String) (hf : st.current_frame = some fr) :
    (_list_source files st a =
        ("\nSource code around line " ++ toString fr.lineno ++ ":") ::
          (_list_source files st a).tail) ∧
    ((_list_source files st a).tail.length = fr.lineno + 5 + 1 - max (fr.lineno - 5) 1) ∧
    (∀ i (h : i < (_list_source files st a).tail.length),
        (_list_source files st a).tail.get ⟨i, h⟩ =
          (if max (fr.lineno - 5) 1 + i = fr.lineno then "-->" else "   ") ++ " " ++
            pyFormat4d (max (fr.lineno - 5) 1 + i) ++ " " ++
            pyRstrip (getline files fr.filename (max (fr.lineno - 5) 1 + i))) ∧
    (("-->" : String) ≠ "   ") ∧
    (("-->" : String).length = ("   " : String).length) ∧
    (∀ n, (files fr.filename).length < n → getline files fr.filename n = "") := by
  have he : _list_source files st a =
      ("\nSource code around line " ++ toString fr.lineno ++ ":") ::
        (List.range' (max (fr.lineno - 5) 1) (fr.lineno + 5 + 1 - max (fr.lineno - 5) 1)).map
          (renderSourceRow files fr.filename fr.lineno) := by
    simp [_list_source, listSourceOut, hf]
  refine ⟨?_, ?_, ?_, by decide, by decide, ?_⟩
  · rw [he]
    rfl
  · rw [he]
    simp
  · intro i h
    have h' : i < fr.lineno + 5 + 1 - max (fr.lineno - 5) 1 := by
      have := h
      rw [he] at this
      simpa using this
    simp only [he, List.tail_cons, List.get_eq_getElem, List.getElem_map,
      List.getElem_range'_1]
    rfl
  · intro n hn
    have : ¬(1 ≤ n ∧ n ≤ (files fr.filename).length) := by omega
    simp [getline, this]

/-- Witness for C4 at a frame stopped at line 10 over an empty file: the body
has `10 + 5 + 1 - max (10 - 5) 1 = 11` rows. -/
theorem list_source_window_witness :
    stW.current_frame = some frW ∧
    (_list_source files0 stW "").tail.length = frW.lineno + 5 + 1 - max (frW.lineno - 5) 1 ∧
    (_list_source files0 stW "").tail.length = 11 :=
  ⟨rfl, (list_source_window files0 stW frW "" rfl).2.1, by decide⟩

/-! Section: C5 -/

/-- C5: whenever the trace callback actually returns from a `"line"` event,
the `step_mode` flag is false in the state it leaves behind, whatever
commands the operator issued during the prompt loop. -/
theorem step_mode_cleared_on_line_event (files : String → List String)
    (st : DebuggerState) (fr : FrameSnapshot) (inputs : List InputEvent)
    (st' : DebuggerState) (out : List String) (dec : ObserverDecision)
    (h : trace_function files st fr "line" inputs = TraceResult.returned st' out dec) :
    st'.step_mode = false := by
  unfold trace_function at h
  rw [if_pos rfl] at h
  dsimp only at h
  split at h
  · split at h
    · cases h
      rfl
    · exact TraceResult.noConfusion h
    · exact TraceResult.noConfusion h
  · cases h
    rfl

/-- Witness for C5: stepping with `n` returns a state with `step_mode`
false even though the `n` handler had just set it. -/
theorem step_mode_cleared_on_line_event_witness :
    trace_function files0 st0 fr0 "line" [InputEvent.line "n"] =
      TraceResult.returned ⟨false, false, some fr0⟩ ["\nAt f:1", "--> "]
        ObserverDecision.keepObserving ∧
    (⟨false, false, some fr0⟩ : DebuggerState).step_mode = false :=
  ⟨by decide,
    step_mode_cleared_on_line_event files0 st0 fr0 [InputEvent.line "n"]
      ⟨false, false, some fr0⟩ ["\nAt f:1", "--> "] ObserverDecision.keepObserving
      (by decide)⟩

/-! Section: C6 -/

/-- Helper: whenever the trace callback returns, the decision it returns is
computed from the `continue_mode` of the state it returns. -/
theorem trace_returned_dec (files : String → List String) (st : DebuggerState)
    (fr : FrameSnapshot) (event : String) (inputs : List InputEvent)
    (st' : DebuggerState) (out : List String) (dec : ObserverDecision)
    (h : trace_function files st fr event inputs = TraceResult.returned st' out dec) :
    dec = (if st'.continue_mode = false then ObserverDecision.keepObserving
           else ObserverDecision.detach) := by
  unfold trace_function at h
  split at h
  · dsimp only at h
    split at h
    · split at h
      · cases h
        rfl
      · exact TraceResult.noConfusion h
      · exact TraceResult.noConfusion h
    · cases h
      simp_all
  · cases h
    rfl

/-- C6: continue-mode is one-way.  Once `continuing` is true, every event —
line events included — is handled with no rendering and no prompting, the
callback returns the Detach decision, and `continuing` is still true in the
resulting state; and in general a returned decision is KeepObserving exactly
when `continuing` is false. -/
theorem continue_is_one_way :
    (∀ (files : String → List String) (st : DebuggerState) (fr : FrameSnapshot)
        (event : String) (inputs : List InputEvent), st.continue_mode = true →
      ∃ st', trace_function files st fr event inputs =
          TraceResult.returned st' [] ObserverDecision.detach ∧
        st'.continue_mode = true) ∧
    (∀ (files : String → List String) (st : DebuggerState) (fr : FrameSnapshot)
        (event : String) (inputs : List InputEvent) (st' : DebuggerState)
        (out : List String) (dec : ObserverDecision),
      trace_function files st fr event inputs = TraceResult.returned st' out dec →
      (dec = ObserverDecision.keepObserving ↔ st'.continue_mode = false)) := by
  constructor
  · intro files st fr event inputs hc
    by_cases he : event = "line"
    · subst he
      refine ⟨{ st with current_frame := some fr, step_mode := false }, ?_, hc⟩
      unfold trace_function
      rw [if_pos rfl]
      simp [hc]
    · refine ⟨st, ?_, hc⟩
      unfold trace_function
      rw [if_neg he]
      simp [hc]
  · intro files st fr event inputs st' out dec h
    rw [trace_returned_dec files st fr event inputs st' out dec h]
    by_cases hx : st'.continue_mode = false <;> simp [hx]

/-- Witness for C6: from a continuing state a line event passes through and
detaches; from an observing state a returned KeepObserving decision matches
`continue_mode = false`. -/
theorem continue_is_one_way_witness :
    (∃ st', trace_function files0 stC fr0 "line" [] =
        TraceResult.returned st' [] ObserverDecision.detach ∧ st'.continue_mode = true) ∧
    (ObserverDecision.keepObserving = ObserverDecision.keepObserving ↔
      st0.continue_mode = false) :=
  ⟨continue_is_one_way.1 files0 stC fr0 "line" [] rfl,
   continue_is_one_way.2 files0 st0 fr0 "call" [] st0 [] ObserverDecision.keepObserving
     (by decide)⟩

/-! Section: C7 -/

/-- C7 (counterexample): in continue-mode a non-line event does pass through
with nothing changed and nothing printed, but the callback returns Detach —
it does not re-register itself as the observer. -/
theorem trace_nonline_detaches_when_continuing_cex :
    trace_function files0 stC fr0 "call" [] =
      TraceResult.returned stC [] ObserverDecision.detach ∧
    ObserverDecision.detach ≠ ObserverDecision.keepObserving :=
  ⟨by decide, by decide⟩

/-- C7 (amended): for every event whose kind is not `"line"`, the trace
callback leaves the state (run-mode flags and current frame snapshot)
unchanged and prints nothing, and it re-registers itself (KeepObserving)
exactly when `continuing` is false, returning Detach otherwise. -/
theorem trace_nonline_passthrough (files : String → List String) (st : DebuggerState)
    (fr : FrameSnapshot) (event : String) (inputs : List InputEvent)
    (he : event ≠ "line") :
    trace_function files st fr event inputs =
      TraceResult.returned st []
        (if st.continue_mode = false then ObserverDecision.keepObserving
         else ObserverDecision.detach) := by
  unfold trace_function
  rw [if_neg he]

/-- Witness for C7 (amended) at a `"call"` event. -/
theorem trace_nonline_passthrough_witness :
    ("call" : String) ≠ "line" ∧
    trace_function files0 st0 fr0 "call" [] =
      TraceResult.returned st0 []
        (if st0.continue_mode = false then ObserverDecision.keepObserving
         else ObserverDecision.detach) :=
  ⟨by decide, trace_nonline_passthrough files0 st0 fr0 "call" [] (by decide)⟩

/-! Section: C8 -/

/-- C8: read/dispatch failures never escape the prompt loop.  A
`KeyboardInterrupt` during `input()` prints the hint to use `q` and
prompting resumes; any other `Exception` raised while reading prints
`Error: <cause>` and prompting resumes; a whitespace-only line (whose
unpacking raises `ValueError`) likewise prints the diagnostic and prompting
resumes — in each case with unchanged debugger state, the same final state
and outcome as if the loop had started at the next read. -/
theorem prompt_contains_input_failures (files : String → List String)
    (st : DebuggerState) (rest : List InputEvent) (msg cmd : String) :
    (_prompt_command files st (InputEvent.interrupt :: rest) =
      ((_prompt_command files st rest).1,
        "\nUse \x27q\x27 to quit" :: (_prompt_command files st rest).2.1,
        (_prompt_command files st rest).2.2)) ∧
    (_prompt_command files st (InputEvent.err msg :: rest) =
      ((_prompt_command files st rest).1,
        ("Error: " ++ msg) :: (_prompt_command files st rest).2.1,
        (_prompt_command files st rest).2.2)) ∧
    (cmd ≠ "" → pySplitMax1 cmd = [] →
      _prompt_command files st (InputEvent.line cmd :: rest) =
        ((_prompt_command files st rest).1,
          "Error: not enough values to unpack (expected at least 1, got 0)" ::
            (_prompt_command files st rest).2.1,
          (_prompt_command files st rest).2.2)) := by
  refine ⟨rfl, rfl, fun h1 h2 => ?_⟩
  simp only [_prompt_command, if_neg h1, h2]

/-- Witness for C8: a whitespace-only input line is absorbed as a caught
`ValueError` and prompting resumes. -/
theorem prompt_contains_input_failures_witness :
    (" " ≠ "") ∧ pySplitMax1 " " = [] ∧
    _prompt_command files0 st0 [InputEvent.line " "] =
      ((_prompt_command files0 st0 []).1,
        "Error: not enough values to unpack (expected at least 1, got 0)" ::
          (_prompt_command files0 st0 []).2.1,
        (_prompt_command files0 st0 []).2.2) :=
  ⟨by decide, rfl,
    (prompt_contains_input_failures files0 st0 [] "m" " ").2.2 (by decide) rfl⟩

/-! Section: C9 -/

/-- Helper: a line whose command token is `q` makes the prompt loop end at
once with `SystemExit(0)` escaping, no further reads consumed. -/
theorem prompt_quit_helper (files : String → List String) (st : DebuggerState)
    (cmd : String) (args : List String) (rest : List InputEvent)
    (h : pySplitMax1 cmd = "q" :: args) :
    _prompt_command files st (InputEvent.line cmd :: rest) =
      (st, [], PromptOutcome.quit 0) := by
  rw [prompt_line_step files st cmd "q" args rest h]
  rfl

/-- C9: the quit command raises `SystemExit(0)`, which the prompt loop's
`except Exception` containment does not intercept: the loop ends immediately
with exit code 0, never reading another command; on a line event the whole
trace callback ends the process the same way (the modelled `exited` result),
never returning control. -/
theorem quit_terminates_process :
    (∀ (files : String → List String) (st : DebuggerState) (cmd : String)
        (args : List String) (rest : List InputEvent),
      pySplitMax1 cmd = "q" :: args →
      _prompt_command files st (InputEvent.line cmd :: rest) =
        (st, [], PromptOutcome.quit 0)) ∧
    (∀ (files : String → List String) (st : DebuggerState) (fr : FrameSnapshot)
        (rest : List InputEvent), st.continue_mode = false →
      ∃ out, trace_function files st fr "line" (InputEvent.line "q" :: rest) =
          TraceResult.exited 0 { st with current_frame := some fr } out) := by
  constructor
  · exact prompt_quit_helper
  · intro files st fr rest hc
    refine ⟨showCurrentLineOut files (some fr) ++ [], ?_⟩
    unfold trace_function
    rw [if_pos rfl]
    dsimp only
    rw [if_pos hc]
    rw [prompt_quit_helper files { st with current_frame := some fr } "q" [] rest rfl]

/-- Witness for C9 at the console line `q`. -/
theorem quit_terminates_process_witness :
    pySplitMax1 "q" = ["q"] ∧
    _prompt_command files0 st0 [InputEvent.line "q"] = (st0, [], PromptOutcome.quit 0) :=
  ⟨rfl, quit_terminates_process.1 files0 st0 "q" [] [] rfl⟩

/-! Section: C10 -/

/-- Helper: command dispatch commutes with forgetting the `step_mode` flag. -/
theorem dispatch_eraseStep (files : String → List String) (st : DebuggerState)
    (command arg : String) :
    dispatchNF files (eraseStep st) command arg =
      (dispatch files st command arg).map
        (fun r => match r with
          | HandlerResult.ok st' out => HandlerResultNF.ok (eraseStep st') out
          | HandlerResult.exit code => HandlerResultNF.exit code) := by
  unfold dispatch dispatchNF
  split_ifs <;> rfl

/-- Helper: the prompt loop commutes with forgetting the `step_mode` flag:
same output, same outcome, and final states equal up to the flag. -/
theorem prompt_eraseStep (files : String → List String) (inputs : List InputEvent)
    (st : DebuggerState) :
    promptCommandNF files (eraseStep st) inputs =
      (eraseStep (_prompt_command files st inputs).1,
        (_prompt_command files st inputs).2.1, (_prompt_command files st inputs).2.2) := by
  induction inputs generalizing st with
  | nil => rfl
  | cons ev rest ih =>
      cases ev with
      | interrupt => simp only [_prompt_command, promptCommandNF, ih]
      | err msg => simp only [_prompt_command, promptCommandNF, ih]
      | line cmd =>
          by_cases hc : cmd = ""
          · simp only [_prompt_command, promptCommandNF, if_pos hc, ih]
          · simp only [_prompt_command, promptCommandNF, if_neg hc]
            cases hs : pySplitMax1 cmd with
            | nil => simp only [ih]
            | cons command args =>
                dsimp only
                rw [dispatch_eraseStep]
                cases hd : dispatch files st command (args.headD "") with
                | none => simp [ih]
                | some r =>
                    cases r with
                    | ok st' out =>
                        by_cases hnc : command = "n" ∨ command = "c"
                        · simp [hnc]
                        · simp [hnc, ih]
                    | exit code => simp

/-- C10: the `step_mode` flag is write-only, so the debugger's observable
behaviour — everything printed, whether the prompt loop runs, the prompt
outcome, and the observer decision or process exit of the trace callback —
coincides with that of the flag-free debugger on every event and every
console-input sequence; stepping works solely because `n` ends the prompt
loop while leaving `continuing` false. -/
theorem step_flag_has_no_observable_effect (files : String → List String)
    (st : DebuggerState) (fr : FrameSnapshot) (event : String)
    (inputs : List InputEvent) :
    traceFunctionNF files (eraseStep st) fr event inputs =
      eraseStepResult (trace_function files st fr event inputs) := by
  by_cases he : event = "line"
  · subst he
    rcases hq : _prompt_command files { st with current_frame := some fr } inputs
      with ⟨s2, o2, oc⟩
    have hp := prompt_eraseStep files inputs { st with current_frame := some fr }
    rw [hq] at hp
    unfold trace_function traceFunctionNF
    rw [if_pos rfl, if_pos rfl]
    dsimp only [eraseStep] at hp ⊢
    by_cases hcm : st.continue_mode = false
    · rw [if_pos hcm, if_pos hcm, hq, hp]
      cases oc <;> rfl
    · simp only [if_neg hcm]
      rfl
  · unfold trace_function traceFunctionNF
    rw [if_neg he, if_neg he]
    rfl

end WeeBugger
